import Mathlib

/-!
Verification of the Flappy Bird frontend game core
(src/frontend/src/FlappyBird.tsx; src/unnamed/part_000 is a near-identical
variant with the same constants and loop body).

The simulation state and the per-frame update are embedded shallowly:
JavaScript numbers are modelled as rationals (all operations used by the
game core are exact field operations and comparisons), wall-clock
milliseconds as integers, and the mutable `gameStateRef` record as a
`GameState` value threaded through pure step functions.  `Math.random()`
and the frame timestamps are inputs of the step functions.
-/

namespace Flappy

/-- Physics constants, FlappyBird.tsx lines 18-30. -/
def GRAVITY : ℚ := 3 / 10

/-- JUMP_STRENGTH = 7.5, line 20. -/
def JUMP_STRENGTH : ℚ := 15 / 2

/-- PIPE_WIDTH = 52, line 21. -/
def PIPE_WIDTH : ℚ := 52

/-- PIPE_GAP = 150, line 22. -/
def PIPE_GAP : ℚ := 150

/-- PIPE_SPEED = 2, line 23. -/
def PIPE_SPEED : ℚ := 2

/-- BIRD_WIDTH = 34, line 24. -/
def BIRD_WIDTH : ℚ := 34

/-- BIRD_HEIGHT = 24, line 25. -/
def BIRD_HEIGHT : ℚ := 24

/-- TARGET_FPS = 60, line 26. -/
def TARGET_FPS : ℚ := 60

/-- MAX_DELTA_TIME = 1, line 27. -/
def MAX_DELTA_TIME : ℚ := 1

/-- JUMP_COOLDOWN = 200 (wall-clock milliseconds), line 28. -/
def JUMP_COOLDOWN : ℤ := 200

/-- CANVAS_WIDTH = 288, line 29. -/
def CANVAS_WIDTH : ℚ := 288

/-- CANVAS_HEIGHT = 512, line 30. -/
def CANVAS_HEIGHT : ℚ := 512

/-- Bird record, line 32. -/
structure Bird where
  y : ℚ
  velocity : ℚ
  frame : ℕ
deriving DecidableEq

/-- Pipe record, line 33: `x` is the leading (left) edge, `topHeight` the
height of the segment above the gap, `scored` the pass-scoring flag. -/
structure Pipe where
  x : ℚ
  topHeight : ℚ
  scored : Bool
deriving DecidableEq

/-- GameState record, lines 34-37: the single mutable simulation document
held in `gameStateRef`. -/
structure GameState where
  bird : Bird
  pipes : List Pipe
  score : ℕ
  gameOver : Bool
  gameStarted : Bool
  frameCount : ℕ
deriving DecidableEq

/-- Initial value of `gameStateRef`, lines 70-73. -/
def initialGameState : GameState :=
  { bird := { y := 200, velocity := 0, frame := 0 }, pipes := [], score := 0,
    gameOver := false, gameStarted := false, frameCount := 0 }

/-- Timebase normalizer, gameLoop lines 297-299: when the stored previous
timestamp is 0 (uninitialized) it is first overwritten with the current
timestamp, then the step multiplier is the elapsed time divided by
(1000 / TARGET_FPS), clamped above by MAX_DELTA_TIME. -/
def computeDt (lastFrameTime currentTime : ℚ) : ℚ :=
  let last := if lastFrameTime = 0 then currentTime else lastFrameTime
  min ((currentTime - last) / (1000 / TARGET_FPS)) MAX_DELTA_TIME

/-- Axis-aligned rectangle as used by the collision checks, lines 317-327. -/
structure Rect where
  x : ℚ
  y : ℚ
  width : ℚ
  height : ℚ
deriving DecidableEq

/-- AABB overlap test, lines 322 and 325: four strict comparisons. -/
def rectsIntersect (a b : Rect) : Bool :=
  decide (a.x < b.x + b.width) && decide (a.x + a.width > b.x) &&
  decide (a.y < b.y + b.height) && decide (a.y + a.height > b.y)

/-- Bird rectangle, line 317: fixed horizontal anchor 50. -/
def birdRect (birdY : ℚ) : Rect :=
  { x := 50, y := birdY, width := BIRD_WIDTH, height := BIRD_HEIGHT }

/-- Upper pipe segment rectangle, line 320. -/
def topPipeRect (p : Pipe) : Rect :=
  { x := p.x, y := 0, width := PIPE_WIDTH, height := p.topHeight }

/-- Lower pipe segment rectangle, line 321. -/
def bottomPipeRect (p : Pipe) : Rect :=
  { x := p.x, y := p.topHeight + PIPE_GAP, width := PIPE_WIDTH,
    height := CANVAS_HEIGHT - p.topHeight - PIPE_GAP }

/-- Pipe advance, line 312: `pipes[i].x -= PIPE_SPEED * dt`. -/
def movePipe (dt : ℚ) (p : Pipe) : Pipe :=
  { p with x := p.x - PIPE_SPEED * dt }

/-- Pipe retirement, lines 312-313: indices with trailing edge
(`x + PIPE_WIDTH`) at or past 0 are collected in increasing order and
spliced out from highest to lowest, which removes exactly those pipes and
keeps the survivors in their original relative order, i.e. a filter. -/
def retirePipes (pipes : List Pipe) : List Pipe :=
  pipes.filter fun p => decide (p.x + PIPE_WIDTH > 0)

/-- Pipe spawning, lines 314-316: when the list is empty or the last pipe's
leading edge is left of CANVAS_WIDTH - 200, append a pipe at
x = CANVAS_WIDTH with `scored = false`.  The `Math.random()`-derived
`topHeight` is taken as an input. -/
def spawnPipes (pipes : List Pipe) (topHeight : ℚ) : List Pipe :=
  match pipes.getLast? with
  | none => pipes ++ [{ x := CANVAS_WIDTH, topHeight := topHeight, scored := false }]
  | some last =>
      if last.x < CANVAS_WIDTH - 200 then
        pipes ++ [{ x := CANVAS_WIDTH, topHeight := topHeight, scored := false }]
      else pipes

/-- Pass scoring for one pipe, line 319: when unscored and the trailing edge
is strictly left of the bird anchor 50, set `scored` and increment. -/
def scorePipe (p : Pipe) (score : ℕ) : Pipe × ℕ :=
  if p.scored = false ∧ p.x + PIPE_WIDTH < 50 then
    ({ p with scored := true }, score + 1)
  else (p, score)

/-- Collision of the bird with either segment of one pipe, lines 320-327. -/
def pipeCollides (birdY : ℚ) (p : Pipe) : Bool :=
  rectsIntersect (birdRect birdY) (topPipeRect p) ||
  rectsIntersect (birdRect birdY) (bottomPipeRect p)

/-- The per-pipe scoring and collision loop, lines 318-328: each pipe is
first score-checked, then collision-checked against both segments; on the
first collision the loop breaks, leaving later pipes untouched.  Returns
the updated pipe list, the updated score, and the collision flag. -/
def checkPipes (birdY : ℚ) : List Pipe → ℕ → List Pipe × ℕ × Bool
  | [], score => ([], score, false)
  | p :: rest, score =>
      let ps := scorePipe p score
      if pipeCollides birdY ps.1 then (ps.1 :: rest, ps.2, true)
      else
        let r := checkPipes birdY rest ps.2
        (ps.1 :: r.1, r.2.1, r.2.2)

/-- One invocation of the simulation part of `gameLoop`, lines 303-330, for
a given step multiplier `dt` and would-be random `topHeight`: not-started
and game-over frames leave the state unchanged; a running frame integrates
gravity, advances the animation counter, moves and retires pipes, spawns,
runs the scoring/collision loop, and finally checks the vertical bounds
(`y > CANVAS_HEIGHT || y < 0`). -/
def frame (s : GameState) (dt topHeight : ℚ) : GameState :=
  if s.gameStarted = false then s
  else if s.gameOver = true then s
  else
    let v := s.bird.velocity + GRAVITY * dt
    let y := s.bird.y + v * dt
    let fc := s.frameCount + 1
    let bf := if fc % 5 = 0 then (s.bird.frame + 1) % 3 else s.bird.frame
    let survivors := retirePipes (s.pipes.map (movePipe dt))
    let spawned := spawnPipes survivors topHeight
    let checked := checkPipes y spawned s.score
    { bird := { y := y, velocity := v, frame := bf },
      pipes := checked.1, score := checked.2.1,
      gameOver := checked.2.2 || (decide (y > CANVAS_HEIGHT) || decide (y < 0)),
      gameStarted := true, frameCount := fc }

/-- Frame variant following the spec sentence "checks happen before
retirement" (section 4.3): identical to `frame` except that the
scoring/collision loop runs on the moved pipes before retirement and
spawning.  Used only to compare against the source-faithful `frame`. -/
def specOrderFrame (s : GameState) (dt topHeight : ℚ) : GameState :=
  if s.gameStarted = false then s
  else if s.gameOver = true then s
  else
    let v := s.bird.velocity + GRAVITY * dt
    let y := s.bird.y + v * dt
    let fc := s.frameCount + 1
    let bf := if fc % 5 = 0 then (s.bird.frame + 1) % 3 else s.bird.frame
    let moved := s.pipes.map (movePipe dt)
    let checked := checkPipes y moved s.score
    let spawned := spawnPipes (retirePipes checked.1) topHeight
    { bird := { y := y, velocity := v, frame := bf },
      pipes := spawned, score := checked.2.1,
      gameOver := checked.2.2 || (decide (y > CANVAS_HEIGHT) || decide (y < 0)),
      gameStarted := true, frameCount := fc }

/-- The jump handler, lines 229-237: rejected outright when fewer than
JUMP_COOLDOWN wall-clock ms have passed since the last accepted impulse;
otherwise the timestamp is recorded and, while running, the velocity is
replaced by -JUMP_STRENGTH; while not started, the game is started; while
over, the game state is untouched.  State is `(gameStateRef,
lastJumpTimeRef)`; audio is omitted. -/
def jump (s : GameState) (lastJumpTime now : ℤ) : GameState × ℤ :=
  if now - lastJumpTime < JUMP_COOLDOWN then (s, lastJumpTime)
  else if s.gameOver = false ∧ s.gameStarted = true then
    ({ s with bird := { s.bird with velocity := -JUMP_STRENGTH } }, now)
  else if s.gameStarted = false then
    ({ s with gameStarted := true }, now)
  else (s, now)

/-- Space key handler, lines 273-283: when not started, start directly
(no cooldown check, `lastJumpTimeRef` untouched); when running, delegate
to `jump`; when over, do nothing. -/
def handleKeyPressSpace (s : GameState) (lastJumpTime now : ℤ) : GameState × ℤ :=
  if s.gameStarted = false then ({ s with gameStarted := true }, lastJumpTime)
  else if s.gameOver = false then jump s lastJumpTime now
  else (s, lastJumpTime)

/-- Canvas click/touch handler, lines 351-357: ignored while game over,
otherwise delegates to `jump`. -/
def handleCanvasClick (s : GameState) (lastJumpTime now : ℤ) : GameState × ℤ :=
  if s.gameOver = true then (s, lastJumpTime) else jump s lastJumpTime now

/-- Restart, lines 265-269: `gameStateRef.current` is replaced wholesale by
a fresh record (score 0, no pipes, running, frame counter 0, bird at the
canonical start position and velocity). -/
def restartGame (_s : GameState) : GameState :=
  { bird := { y := 200, velocity := 0, frame := 0 }, pipes := [], score := 0,
    gameOver := false, gameStarted := true, frameCount := 0 }

/-- Scoring invariant: in any state that can still run a frame, every pipe
whose trailing edge is strictly left of the bird anchor has been scored. -/
def ScoredInv (s : GameState) : Prop :=
  s.gameOver = false → ∀ p ∈ s.pipes, p.x + PIPE_WIDTH < 50 → p.scored = true

/-- States reachable from the initial session through the game's entry
points: frames with step multiplier in [0, 1] and arbitrary spawn height,
pointer/touch impulses, Space presses, and restarts. -/
inductive Reachable : GameState → Prop where
  | init : Reachable initialGameState
  | step (s : GameState) (dt h : ℚ) : Reachable s → 0 ≤ dt → dt ≤ 1 →
      Reachable (frame s dt h)
  | tap (s : GameState) (lj t : ℤ) : Reachable s →
      Reachable (handleCanvasClick s lj t).1
  | key (s : GameState) (lj t : ℤ) : Reachable s →
      Reachable (handleKeyPressSpace s lj t).1
  | redo (s : GameState) : Reachable s → Reachable (restartGame s)

/-- Running state holding one unscored pipe whose trailing edge sits at 1
(x = -51, so x + PIPE_WIDTH = 1 > 0) and therefore reaches 0 during the next
frame with dt = 1. -/
def retireCexState : GameState :=
  { bird := { y := 200, velocity := 0, frame := 0 },
    pipes := [{ x := -51, topHeight := 100, scored := false }], score := 0,
    gameOver := false, gameStarted := true, frameCount := 0 }

/-- Running state with the bird below the world (y = 513) but carrying a
large upward velocity. -/
def rescueCexState : GameState :=
  { bird := { y := 513, velocity := -100, frame := 0 }, pipes := [], score := 0,
    gameOver := false, gameStarted := true, frameCount := 0 }

/-- Running state with the bird below the world (y = 513) at rest. -/
def groundOutState : GameState :=
  { bird := { y := 513, velocity := 0, frame := 0 }, pipes := [], score := 0,
    gameOver := false, gameStarted := true, frameCount := 0 }

/-- Running state where the bird's top edge exactly touches the bottom edge
of the upper pipe segment (bird y = topHeight = 200, x ranges overlap). -/
def touchYState : GameState :=
  { bird := { y := 200, velocity := 0, frame := 0 },
    pipes := [{ x := 50, topHeight := 200, scored := false }], score := 0,
    gameOver := false, gameStarted := true, frameCount := 0 }

/-- `touchYState` with one unit of vertical overlap (bird y = 199). -/
def overlapYState : GameState :=
  { bird := { y := 199, velocity := 0, frame := 0 },
    pipes := [{ x := 50, topHeight := 200, scored := false }], score := 0,
    gameOver := false, gameStarted := true, frameCount := 0 }

/-- Running state where the bird's right edge (50 + 34 = 84) exactly touches
the pipe's leading edge (x = 84), with vertical overlap present. -/
def touchXState : GameState :=
  { bird := { y := 100, velocity := 0, frame := 0 },
    pipes := [{ x := 84, topHeight := 200, scored := false }], score := 0,
    gameOver := false, gameStarted := true, frameCount := 0 }

/-- `touchXState` with one unit of horizontal overlap (pipe x = 83). -/
def overlapXState : GameState :=
  { bird := { y := 100, velocity := 0, frame := 0 },
    pipes := [{ x := 83, topHeight := 200, scored := false }], score := 0,
    gameOver := false, gameStarted := true, frameCount := 0 }

/-- Plain running state with a nonzero velocity, used to instantiate the
impulse theorems at a concrete input. -/
def runningState : GameState :=
  { bird := { y := 250, velocity := 4, frame := 1 }, pipes := [], score := 3,
    gameOver := false, gameStarted := true, frameCount := 40 }

/-- C2: for timestamps with `0 ≤ prev ≤ cur`, the step multiplier lies in
[0, 1]; it is 0 when the previous timestamp is 0 (uninitialized); otherwise
it equals the elapsed milliseconds divided by 1000/60 clamped to a maximum
of 1; and a 10-second pause yields multiplier exactly 1. -/
theorem computeDt_in_unit_interval (prev cur : ℚ) (h0 : 0 ≤ prev) (hle : prev ≤ cur) :
    (0 ≤ computeDt prev cur ∧ computeDt prev cur ≤ 1)
    ∧ (prev = 0 → computeDt prev cur = 0)
    ∧ (0 < prev → computeDt prev cur = min ((cur - prev) / (1000 / 60)) 1)
    ∧ (0 < prev → computeDt prev (prev + 10000) = 1) := by
  unfold computeDt
  by_cases hz : prev = 0
  · subst hz
    simp [TARGET_FPS, MAX_DELTA_TIME]
  · have hpos : ¬prev = 0 := hz
    refine ⟨⟨?_, ?_⟩, fun he => absurd he hz, fun _ => ?_, fun _ => ?_⟩
    · simp only [if_neg hpos, TARGET_FPS, MAX_DELTA_TIME]
      exact le_min (div_nonneg (sub_nonneg.2 hle) (by norm_num)) (by norm_num)
    · simp only [if_neg hpos, MAX_DELTA_TIME]
      exact min_le_right _ _
    · simp [if_neg hpos, TARGET_FPS, MAX_DELTA_TIME]
    · simp only [if_neg hpos, TARGET_FPS, MAX_DELTA_TIME]
      rw [add_sub_cancel_left]
      norm_num

/-- Witness for C2 at prev = 1000, cur = 11000. -/
theorem computeDt_in_unit_interval_witness : computeDt 1000 (1000 + 10000) = 1 :=
  (computeDt_in_unit_interval 1000 11000 (by norm_num) (by norm_num)).2.2.2 (by norm_num)

/-- C3: the AABB test is strict on all four sides, so rectangles that
exactly touch on an edge never intersect; concretely, a frame in which the
bird exactly touches a pipe segment edge (vertically or horizontally) does
not end the game, while one more unit of overlap on that axis sets the
game-over flag. -/
theorem collision_touch_vs_overlap :
    (∀ a b : Rect,
      a.x + a.width = b.x ∨ b.x + b.width = a.x ∨
        a.y + a.height = b.y ∨ b.y + b.height = a.y →
      rectsIntersect a b = false)
    ∧ (frame touchYState 0 100).gameOver = false
    ∧ (frame overlapYState 0 100).gameOver = true
    ∧ (frame touchXState 0 100).gameOver = false
    ∧ (frame overlapXState 0 100).gameOver = true := by
  refine ⟨?_, ?_, ?_, ?_, ?_⟩
  · rintro a b (h | h | h | h) <;> simp [rectsIntersect, h]
  all_goals
    norm_num [frame, retirePipes, spawnPipes, checkPipes, scorePipe, pipeCollides,
      rectsIntersect, movePipe, birdRect, topPipeRect, bottomPipeRect, PIPE_WIDTH,
      PIPE_SPEED, GRAVITY, CANVAS_WIDTH, CANVAS_HEIGHT, BIRD_WIDTH, BIRD_HEIGHT,
      PIPE_GAP, touchYState, overlapYState, touchXState, overlapXState]

/-- C4: an impulse is accepted only when at least JUMP_COOLDOWN wall-clock
milliseconds have elapsed since the last accepted impulse; a rejected
impulse changes nothing; from an accepted impulse at time t, a second
request at t + 50 is dropped while a second request at t + 250 is accepted
and changes the velocity again. -/
theorem jump_cooldown_rate_limit (s : GameState) (lj t : ℤ)
    (hs : s.gameStarted = true) (ho : s.gameOver = false)
    (hacc : JUMP_COOLDOWN ≤ t - lj) :
    ((jump s lj t).1.bird.velocity = -JUMP_STRENGTH ∧ (jump s lj t).2 = t)
    ∧ jump (jump s lj t).1 (jump s lj t).2 (t + 50) = ((jump s lj t).1, t)
    ∧ ((jump (jump s lj t).1 t (t + 250)).1.bird.velocity = -JUMP_STRENGTH
        ∧ (jump (jump s lj t).1 t (t + 250)).2 = t + 250)
    ∧ (∀ s' : GameState, ∀ lj' t' : ℤ, t' - lj' < JUMP_COOLDOWN →
        jump s' lj' t' = (s', lj')) := by
  have hc200 : JUMP_COOLDOWN = (200 : ℤ) := rfl
  have hnot : ¬t - lj < JUMP_COOLDOWN := not_lt.2 hacc
  have h1 : jump s lj t = ({ s with bird := { s.bird with velocity := -JUMP_STRENGTH } }, t) := by
    rw [jump, if_neg hnot, if_pos ⟨ho, hs⟩]
  refine ⟨⟨?_, ?_⟩, ?_, ⟨?_, ?_⟩, ?_⟩
  · rw [h1]
  · rw [h1]
  · rw [h1, jump, if_pos (by rw [hc200]; omega)]
  · rw [h1, jump, if_neg (by rw [hc200]; omega), if_pos ⟨ho, hs⟩]
  · rw [h1, jump, if_neg (by rw [hc200]; omega), if_pos ⟨ho, hs⟩]
  · intro s' lj' t' hrej
    rw [jump, if_pos hrej]

/-- Witness for C4: from `runningState` with last accepted impulse at 0, an
impulse at t = 1000 sets the velocity and one at 1050 is dropped. -/
theorem jump_cooldown_rate_limit_witness :
    (jump runningState 0 1000).1.bird.velocity = -JUMP_STRENGTH
    ∧ jump (jump runningState 0 1000).1 (jump runningState 0 1000).2 (1000 + 50)
        = ((jump runningState 0 1000).1, 1000) := by
  have h := jump_cooldown_rate_limit runningState 0 1000 rfl rfl (by decide)
  exact ⟨h.1.1, h.2.1⟩

/-- C6: pass scoring is idempotent: applying the per-pipe scoring check
twice equals applying it once; an already-passed pipe is a no-op; an
unscored pipe whose trailing edge is past the bird anchor is marked passed
and scores exactly one point. -/
theorem scorePipe_idempotent (p : Pipe) (score : ℕ) :
    scorePipe (scorePipe p score).1 (scorePipe p score).2 = scorePipe p score
    ∧ (p.scored = true → scorePipe p score = (p, score))
    ∧ (p.scored = false → p.x + PIPE_WIDTH < 50 →
        scorePipe p score = ({ p with scored := true }, score + 1)) := by
  by_cases h : p.scored = false ∧ p.x + PIPE_WIDTH < 50
  · refine ⟨?_, ?_, fun _ _ => by rw [scorePipe, if_pos h]⟩
    · simp [scorePipe, h]
    · intro ht
      rw [h.1] at ht
      exact absurd ht (by simp)
  · exact ⟨by simp [scorePipe, h], fun _ => by rw [scorePipe, if_neg h],
      fun h1 h2 => absurd ⟨h1, h2⟩ h⟩

/-- C7: an accepted impulse sets the velocity to exactly -JUMP_STRENGTH
while running (replacing the previous velocity, all else unchanged), starts
the game while not started (velocity unchanged), and leaves the game state
untouched while over. -/
theorem jump_effect_by_phase (s : GameState) (lj t : ℤ)
    (hacc : JUMP_COOLDOWN ≤ t - lj) :
    (s.gameStarted = true → s.gameOver = false →
      jump s lj t = ({ s with bird := { s.bird with velocity := -JUMP_STRENGTH } }, t))
    ∧ (s.gameStarted = false →
      jump s lj t = ({ s with gameStarted := true }, t))
    ∧ (s.gameStarted = true → s.gameOver = true → (jump s lj t).1 = s) := by
  have hnot : ¬t - lj < JUMP_COOLDOWN := not_lt.2 hacc
  refine ⟨fun hs ho => ?_, fun hns => ?_, fun hs hov => ?_⟩
  · rw [jump, if_neg hnot, if_pos ⟨ho, hs⟩]
  · rw [jump, if_neg hnot, if_neg (by simp [hns]), if_pos hns]
  · rw [jump, if_neg hnot, if_neg (by simp [hov]), if_neg (by simp [hs])]

/-- Witness for C7 at `runningState`, last impulse 0, request time 1000. -/
theorem jump_effect_by_phase_witness :
    (runningState.gameStarted = true → runningState.gameOver = false →
      jump runningState 0 1000 =
        ({ runningState with
            bird := { runningState.bird with velocity := -JUMP_STRENGTH } }, 1000))
    ∧ (runningState.gameStarted = false →
      jump runningState 0 1000 = ({ runningState with gameStarted := true }, 1000))
    ∧ (runningState.gameStarted = true → runningState.gameOver = true →
      (jump runningState 0 1000).1 = runningState) :=
  jump_effect_by_phase runningState 0 1000 (by decide)

/-- C8: restart replaces the whole session with a constant fresh value,
independent of the old session: score 0, no obstacles, running phase, frame
counter 0, and the bird at the canonical start position and velocity. -/
theorem restartGame_fresh (s t : GameState) :
    restartGame s = restartGame t
    ∧ (restartGame s).score = 0 ∧ (restartGame s).pipes = []
    ∧ (restartGame s).gameOver = false ∧ (restartGame s).gameStarted = true
    ∧ (restartGame s).frameCount = 0
    ∧ (restartGame s).bird = { y := 200, velocity := 0, frame := 0 } :=
  ⟨rfl, rfl, rfl, rfl, rfl, rfl, rfl⟩

/-- C1 counterexample: in `retireCexState` the single pipe is unscored and
its trailing edge (1) crosses 0 during a dt = 1 frame.  The claim's order
(checks before retirement) would score it, yielding score 1 as
`specOrderFrame` shows; the source's frame retires it first and the score
stays 0, so the pipe was removed without being scoring-checked. -/
theorem retirement_order_cex :
    (frame retireCexState 1 100).score = 0
    ∧ (specOrderFrame retireCexState 1 100).score = 1 := by
  constructor <;>
    norm_num [frame, specOrderFrame, retirePipes, spawnPipes, checkPipes, scorePipe,
      pipeCollides, rectsIntersect, movePipe, birdRect, topPipeRect, bottomPipeRect,
      PIPE_WIDTH, PIPE_SPEED, GRAVITY, CANVAS_WIDTH, CANVAS_HEIGHT, BIRD_WIDTH,
      BIRD_HEIGHT, PIPE_GAP, retireCexState]

/-- C1 (amended): in every running frame the obstacles are moved and retired
before the scoring/collision checks, which then operate on the
post-retirement (and post-spawn) list only; retirement removes exactly the
moved pipes with trailing edge at or past 0 and keeps the survivors in
their original relative order. -/
theorem frame_retires_before_checks (s : GameState) (dt h : ℚ)
    (hs : s.gameStarted = true) (ho : s.gameOver = false) :
    List.Sublist (retirePipes (s.pipes.map (movePipe dt))) (s.pipes.map (movePipe dt))
    ∧ (∀ p : Pipe, p ∈ retirePipes (s.pipes.map (movePipe dt)) ↔
        p ∈ s.pipes.map (movePipe dt) ∧ p.x + PIPE_WIDTH > 0)
    ∧ (frame s dt h).pipes =
        (checkPipes (s.bird.y + (s.bird.velocity + GRAVITY * dt) * dt)
          (spawnPipes (retirePipes (s.pipes.map (movePipe dt))) h) s.score).1
    ∧ (frame s dt h).score =
        (checkPipes (s.bird.y + (s.bird.velocity + GRAVITY * dt) * dt)
          (spawnPipes (retirePipes (s.pipes.map (movePipe dt))) h) s.score).2.1 := by
  refine ⟨List.filter_sublist _, fun p => ?_, ?_, ?_⟩
  · simp [retirePipes, List.mem_filter]
  · simp [frame, hs, ho]
  · simp [frame, hs, ho]

/-- Witness for C1's amended theorem at `retireCexState`, dt = 1. -/
theorem frame_retires_before_checks_witness :
    List.Sublist (retirePipes (retireCexState.pipes.map (movePipe 1)))
        (retireCexState.pipes.map (movePipe 1))
    ∧ (frame retireCexState 1 100).score =
        (checkPipes (retireCexState.bird.y +
            (retireCexState.bird.velocity + GRAVITY * 1) * 1)
          (spawnPipes (retirePipes (retireCexState.pipes.map (movePipe 1))) 100)
          retireCexState.score).2.1 := by
  have h := frame_retires_before_checks retireCexState 1 100 rfl rfl
  exact ⟨h.1, h.2.2.2⟩

/-- C5 counterexample: starting a dt = 1 frame at y = 513 (outside
[0, 512]) with velocity -100, the frame integrates first and the bounds
check sees y back inside the world, so the phase does not become Over. -/
theorem out_of_bounds_rescued_cex : (frame rescueCexState 1 100).gameOver = false := by
  norm_num [frame, retirePipes, spawnPipes, checkPipes, scorePipe, pipeCollides,
    rectsIntersect, movePipe, birdRect, topPipeRect, bottomPipeRect, PIPE_WIDTH,
    PIPE_SPEED, GRAVITY, CANVAS_WIDTH, CANVAS_HEIGHT, BIRD_WIDTH, BIRD_HEIGHT,
    PIPE_GAP, rescueCexState]

/-- C5 (amended): whenever the post-integration vertical position of a
running frame lies outside [0, CANVAS_HEIGHT], that frame sets the
game-over flag regardless of the obstacle state; in particular a body
entering the frame at y = 513 with nonnegative velocity is terminal. -/
theorem out_of_bounds_terminal (s : GameState) (dt h : ℚ)
    (hs : s.gameStarted = true) (ho : s.gameOver = false) (hdt : 0 ≤ dt) :
    (CANVAS_HEIGHT < s.bird.y + (s.bird.velocity + GRAVITY * dt) * dt ∨
        s.bird.y + (s.bird.velocity + GRAVITY * dt) * dt < 0 →
      (frame s dt h).gameOver = true)
    ∧ (s.bird.y = 513 → 0 ≤ s.bird.velocity → (frame s dt h).gameOver = true) := by
  have key : CANVAS_HEIGHT < s.bird.y + (s.bird.velocity + GRAVITY * dt) * dt ∨
      s.bird.y + (s.bird.velocity + GRAVITY * dt) * dt < 0 →
      (frame s dt h).gameOver = true := by
    rintro (hy | hy) <;> simp [frame, hs, ho, hy]
  refine ⟨key, fun hy hv => key (Or.inl ?_)⟩
  have hnn : 0 ≤ (s.bird.velocity + GRAVITY * dt) * dt :=
    mul_nonneg (add_nonneg hv (mul_nonneg (by norm_num [GRAVITY]) hdt)) hdt
  rw [hy]
  simp only [CANVAS_HEIGHT]
  linarith

/-- Witness for C5's amended theorem at `groundOutState` (y = 513, velocity
0), dt = 0. -/
theorem out_of_bounds_terminal_witness : (frame groundOutState 0 100).gameOver = true := by
  have h := out_of_bounds_terminal groundOutState 0 100 rfl rfl (le_refl 0)
  exact h.2 rfl (le_refl 0)

/-- C10: a Space press while not started sets the game running without
consulting the cooldown and without touching the last-impulse timestamp; a
pointer impulse in the same phase is cooldown-checked first (within the
cooldown it does nothing, not even start); a Space start with no previously
accepted impulse is immediately followable by an accepted jump; a tap start
records its own time so a jump 50 ms later is suppressed. -/
theorem space_start_bypasses_cooldown (s : GameState) (lj t : ℤ)
    (hns : s.gameStarted = false) (ho : s.gameOver = false) :
    handleKeyPressSpace s lj t = ({ s with gameStarted := true }, lj)
    ∧ (t - lj < JUMP_COOLDOWN → handleCanvasClick s lj t = (s, lj))
    ∧ (lj = 0 → JUMP_COOLDOWN ≤ t →
        (jump (handleKeyPressSpace s lj t).1 (handleKeyPressSpace s lj t).2 t).1.bird.velocity
          = -JUMP_STRENGTH)
    ∧ (JUMP_COOLDOWN ≤ t - lj →
        jump (handleCanvasClick s lj t).1 (handleCanvasClick s lj t).2 (t + 50)
          = ((handleCanvasClick s lj t).1, (handleCanvasClick s lj t).2)) := by
  have hc200 : JUMP_COOLDOWN = (200 : ℤ) := rfl
  have hspace : handleKeyPressSpace s lj t = ({ s with gameStarted := true }, lj) := by
    rw [handleKeyPressSpace, if_pos hns]
  refine ⟨hspace, fun hrej => ?_, fun hlj hst => ?_, fun hacc => ?_⟩
  · rw [handleCanvasClick, if_neg (by simp [ho]), jump, if_pos hrej]
  · subst hlj
    rw [hspace, jump, if_neg (by rw [sub_zero]; exact not_lt.2 hst), if_pos ⟨ho, rfl⟩]
  · have hclick : handleCanvasClick s lj t = ({ s with gameStarted := true }, t) := by
      rw [handleCanvasClick, if_neg (by simp [ho]), jump, if_neg (not_lt.2 hacc),
        if_neg (by simp [hns]), if_pos hns]
    rw [hclick, jump, if_pos (by rw [hc200]; omega)]

/-- Witness for C10 at the initial session, last impulse 0, Space at time
1000 followed by an immediate jump request. -/
theorem space_start_bypasses_cooldown_witness :
    handleKeyPressSpace initialGameState 0 1000
        = ({ initialGameState with gameStarted := true }, 0)
    ∧ (jump (handleKeyPressSpace initialGameState 0 1000).1
        (handleKeyPressSpace initialGameState 0 1000).2 1000).1.bird.velocity
          = -JUMP_STRENGTH := by
  have h := space_start_bypasses_cooldown initialGameState 0 1000 rfl rfl
  exact ⟨h.1, h.2.2.1 rfl (by decide)⟩

lemma scorePipe_fst_x (q : Pipe) (sc : ℕ) : (scorePipe q sc).1.x = q.x := by
  by_cases h : q.scored = false ∧ q.x + PIPE_WIDTH < 50 <;> simp [scorePipe, h]

lemma scorePipe_fst_scored (q : Pipe) (sc : ℕ) (hx : q.x + PIPE_WIDTH < 50) :
    (scorePipe q sc).1.scored = true := by
  by_cases h : q.scored = false ∧ q.x + PIPE_WIDTH < 50
  · simp [scorePipe, h]
  · rw [scorePipe, if_neg h]
    rcases Bool.eq_false_or_eq_true q.scored with hq | hq
    · exact hq
    · exact absurd ⟨hq, hx⟩ h

lemma checkPipes_scored_of_no_hit (y : ℚ) (ps : List Pipe) :
    ∀ sc : ℕ, (checkPipes y ps sc).2.2 = false →
      ∀ p ∈ (checkPipes y ps sc).1, p.x + PIPE_WIDTH < 50 → p.scored = true := by
  induction ps with
  | nil =>
      intro sc _ p hp
      simp [checkPipes] at hp
  | cons q rest ih =>
      intro sc hfalse p hp hx
      by_cases hcol : pipeCollides y (scorePipe q sc).1 = true
      · rw [checkPipes] at hfalse
        simp [hcol] at hfalse
      · rw [checkPipes] at hfalse hp
        simp only [hcol, if_neg, Bool.false_eq_true, if_false] at hfalse hp
        rcases List.mem_cons.1 hp with hhead | htail
        · subst hhead
          exact scorePipe_fst_scored q sc (by rw [← scorePipe_fst_x q sc]; exact hx)
        · exact ih (scorePipe q sc).2 hfalse p htail hx

lemma jump_fst_pipes_gameOver (s : GameState) (lj t : ℤ) :
    (jump s lj t).1.pipes = s.pipes ∧ (jump s lj t).1.gameOver = s.gameOver := by
  rw [jump]
  split
  · exact ⟨rfl, rfl⟩
  · split
    · exact ⟨rfl, rfl⟩
    · split
      · exact ⟨rfl, rfl⟩
      · exact ⟨rfl, rfl⟩

lemma frame_scoredInv (s : GameState) (dt h : ℚ) :
    ScoredInv s → ScoredInv (frame s dt h) := by
  intro hinv
  by_cases hs : s.gameStarted = false
  · rw [frame, if_pos hs]
    exact hinv
  · by_cases hov : s.gameOver = true
    · rw [frame, if_neg hs, if_pos hov]
      exact hinv
    · intro hgo p hp hx
      simp only [frame, if_neg hs, if_neg hov, Bool.or_eq_false_iff] at hgo hp
      exact checkPipes_scored_of_no_hit _ _ s.score hgo.1 p hp hx

lemma click_scoredInv (s : GameState) (lj t : ℤ) :
    ScoredInv s → ScoredInv (handleCanvasClick s lj t).1 := by
  intro hinv
  rw [handleCanvasClick]
  split
  · exact hinv
  · have hj := jump_fst_pipes_gameOver s lj t
    intro hgo p hp hx
    rw [hj.2] at hgo
    rw [hj.1] at hp
    exact hinv hgo p hp hx

lemma key_scoredInv (s : GameState) (lj t : ℤ) :
    ScoredInv s → ScoredInv (handleKeyPressSpace s lj t).1 := by
  intro hinv
  rw [handleKeyPressSpace]
  split
  · intro hgo p hp hx
    exact hinv hgo p hp hx
  · split
    · have hj := jump_fst_pipes_gameOver s lj t
      intro hgo p hp hx
      rw [hj.2] at hgo
      rw [hj.1] at hp
      exact hinv hgo p hp hx
    · exact hinv

lemma reachable_scoredInv (s : GameState) (hr : Reachable s) : ScoredInv s := by
  induction hr with
  | init =>
      intro _ p hp
      simp [initialGameState] at hp
  | step s dt h _ h0 h1 ih => exact frame_scoredInv s dt h ih
  | tap s lj t _ ih => exact click_scoredInv s lj t ih
  | key s lj t _ ih => exact key_scoredInv s lj t ih
  | redo s _ _ =>
      intro _ p hp
      simp [restartGame] at hp

/-- C9: in every state reachable from the initial session, a running frame
with step multiplier in [0, 1] only ever retires pipes that are already
scored: each pipe moves at most PIPE_SPEED * 1 = 2 units, so a pipe whose
moved trailing edge is at or past 0 had trailing edge below the scoring
threshold 50 before the frame and was scored in an earlier frame. -/
theorem retired_pipes_already_scored (s : GameState) (dt : ℚ)
    (hr : Reachable s) (h0 : 0 ≤ dt) (h1 : dt ≤ 1) (ho : s.gameOver = false) :
    ((s.pipes.map (movePipe dt)).filter fun p =>
        decide (p.x + PIPE_WIDTH ≤ 0)).all (fun p => p.scored) = true := by
  have hinv := reachable_scoredInv s hr
  rw [List.all_eq_true]
  intro q hq
  rw [List.mem_filter] at hq
  obtain ⟨hmem, hcond⟩ := hq
  rw [List.mem_map] at hmem
  obtain ⟨p, hp, rfl⟩ := hmem
  rw [decide_eq_true_eq] at hcond
  simp only [movePipe] at hcond
  have hx : p.x + PIPE_WIDTH < 50 := by
    have hsp : PIPE_SPEED = (2 : ℚ) := rfl
    rw [hsp] at hcond
    linarith
  have hscored := hinv ho p hp hx
  simpa [movePipe] using hscored

/-- Witness for C9 at the initial session (no pipes), dt = 1. -/
theorem retired_pipes_already_scored_witness :
    ((initialGameState.pipes.map (movePipe 1)).filter fun p =>
        decide (p.x + PIPE_WIDTH ≤ 0)).all (fun p => p.scored) = true :=
  retired_pipes_already_scored initialGameState 1 Reachable.init (by norm_num)
    (le_refl 1) rfl

end Flappy
